import Mathlib

/-!
Verification of the interview-topics generator and its storage layer.

This file gives a shallow embedding, in Lean 4, of the validation /
normalization pipeline (`src/agents/interview_agent.py`), the retry wrapper
around the text-generation call, the two storage backends
(`src/database/mongodb_client.py`, `src/database/firebase_client.py`) and the
provider factory (`src/database/database_factory.py`), together with theorems
about the embedded definitions.

Modelling conventions:
* Python strings are Lean `String`s; `str.strip()` is `pstrip` below
  (whitespace trimming on both ends; the ASCII whitespace characters, which
  is what every string reaching `strip` in this code base contains).
* Python numbers (`int`/`float` both accepted by the duration check) are
  modelled as `Int` and `Rat`; `int(x)` is truncation toward zero (`truncQ`).
* Dynamically-typed JSON-ish values are the inductive `Value`; a missing
  dictionary key is `Option.none`.  A Python exception raised while handling
  one candidate (`KeyError` on a missing field, `AttributeError` on
  `.strip()` of a non-string, ...) is caught by the per-candidate
  `try/except` in `_validate_topics` and results in the candidate being
  dropped; in the pure model every such path returns `none`.
* Wall-clock effects are explicit parameters: the insertion timestamp is a
  `now : Nat` argument, the backoff sleeps of the retry loop are returned as
  a list of slept durations (in seconds).
* The database drivers themselves are external collaborators; a collection
  is modelled as the sequence of documents inserted into it, with the
  driver-enforced unique index on `runId` reflected in the insert operation.
  The MongoDB driver's internal `_id` bookkeeping is not part of the model;
  documents are compared on their user-visible fields.
-/

/-- Python `str.strip()` on a list of characters: drop leading and trailing
whitespace. -/
def stripChars (l : List Char) : List Char :=
  ((l.dropWhile Char.isWhitespace).reverse.dropWhile Char.isWhitespace).reverse

/-- Python `str.strip()`. -/
def pstrip (s : String) : String := ⟨stripChars s.data⟩

/-- A dynamically typed value, as found in the JSON parsed from the model
response: strings, integers, floats (rationals stand in for Python floats),
lists, and `None`. -/
inductive Value where
  | vStr (s : String)
  | vInt (n : Int)
  | vFloat (q : Rat)
  | vList (l : List Value)
  | vNone

mutual
/-- Python `str(x)` for `Value`s (total, never raises).  Lists render their
elements with `repr`-style quoting, mirroring CPython; the exact rendering of
numeric scalars is abstracted (it is never observable through the claims: only
string-valued fields reach the cleaned output unchanged). -/
def pyStr : Value → String
  | .vStr s => s
  | .vInt n => toString n
  | .vFloat q => toString q
  | .vList l => "[" ++ pyStrList l ++ "]"
  | .vNone => "None"

/-- Python `repr(x)`, used for elements when rendering a list. -/
def pyReprV : Value → String
  | .vStr s => String.singleton (Char.ofNat 39) ++ s ++ String.singleton (Char.ofNat 39)
  | .vInt n => toString n
  | .vFloat q => toString q
  | .vList l => "[" ++ pyStrList l ++ "]"
  | .vNone => "None"

/-- Comma-separated rendering of the elements of a list. -/
def pyStrList : List Value → String
  | [] => ""
  | [v] => pyReprV v
  | v :: vs => pyReprV v ++ ", " ++ pyStrList vs
end

/-- Python `int(q)` on a float: truncation toward zero. -/
def truncQ (q : Rat) : Int := if 0 ≤ q then ⌊q⌋ else ⌈q⌉

/-- A raw candidate topic record, as parsed from the generation response:
each of the seven recognised keys is present (`some v`, of any dynamic type)
or absent (`none`). -/
structure RawTopic where
  title : Option Value
  category : Option Value
  difficulty : Option Value
  description : Option Value
  keyPoints : Option Value
  duration : Option Value
  technologies : Option Value

/-- A cleaned topic, as produced by `_validate_topics`
(`interview_agent.py:267-275`). -/
structure Topic where
  title : String
  category : String
  difficulty : String
  description : String
  keyPoints : List String
  duration : Int
  technologies : List String
deriving DecidableEq, Repr

/-- Re-embedding of a cleaned `Topic` as a raw candidate record (the shape a
validated topic has when fed to the validator again). -/
def Topic.toRaw (t : Topic) : RawTopic :=
  { title := some (.vStr t.title)
    category := some (.vStr t.category)
    difficulty := some (.vStr t.difficulty)
    description := some (.vStr t.description)
    keyPoints := some (.vList (t.keyPoints.map .vStr))
    duration := some (.vInt t.duration)
    technologies := some (.vList (t.technologies.map .vStr)) }

namespace InterviewTopicsAgent

/-- `self.categories` (`interview_agent.py:35-44`): the 8 interview
categories and their focus areas. -/
def categories : List (String × String) :=
  [("technical_coding", "Coding challenges, algorithms, data structures"),
   ("system_design", "Architecture decisions, scalability, distributed systems"),
   ("behavioral", "Leadership, teamwork, problem-solving approaches"),
   ("technology_deep_dive", "Specific technology expertise and experience"),
   ("architecture_decisions", "Technical trade-offs, design patterns, best practices"),
   ("debugging_troubleshooting", "Problem diagnosis, error handling, performance issues"),
   ("testing_quality", "Testing strategies, QA processes, code quality"),
   ("devops_deployment", "CI/CD, infrastructure, monitoring, deployment strategies")]

/-- `self.difficulty_levels` (`interview_agent.py:47-52`): the 4 difficulty
levels. -/
def difficulty_levels : List (String × String) :=
  [("junior", "Entry-level (0-2 years experience)"),
   ("mid-level", "Experienced developer (3-5 years experience)"),
   ("senior", "Senior engineer (6+ years experience)"),
   ("staff", "Staff/Principal engineer (8+ years experience)")]

/-- The category tags (dictionary keys of `self.categories`); membership in
the Python dict tests the key. -/
def categoryKeys : List String := categories.map Prod.fst

/-- The difficulty tags (dictionary keys of `self.difficulty_levels`). -/
def difficultyKeys : List String := difficulty_levels.map Prod.fst

/-- The duration correction (`interview_agent.py:258-260`): a non-numeric or
out-of-range duration is replaced by `30`; otherwise the value is kept (and
later truncated to an integer by `int(...)`). -/
def coerceDuration (dv : Value) : Rat :=
  match dv with
  | .vInt n => if n < 15 ∨ 120 < n then 30 else (n : Rat)
  | .vFloat q => if q < 15 ∨ 120 < q then 30 else q
  | _ => 30

/-- The technologies correction (`interview_agent.py:262-264`): a non-list
value is replaced by the empty list. -/
def coerceTechnologies (tv : Value) : List Value :=
  match tv with
  | .vList l => l
  | _ => []

/-- The body of the per-candidate loop of `_validate_topics`
(`interview_agent.py:233-281`).  Returns `some cleaned` when the candidate
survives and `none` when it is skipped, whether by an explicit
`continue` or by an exception caught by the per-candidate `except` clause.

Faithfulness notes, keyed to the source:
* the `required_fields` loop (lines 236-239) only `continue`s the *inner*
  loop, so it never skips a candidate; a missing field is instead caught
  later, as a `KeyError`, when the field is read — in the model both appear
  as the `none` branches of the field matches;
* `len(topic["title"]) < 10` (line 242) measures the title *before*
  stripping;
* a non-string `category`/`difficulty` is simply `not in` the dict (no
  exception) and the candidate is skipped;
* an out-of-range or non-numeric `duration` is coerced to `30`, a non-list
  `technologies` to `[]` (lines 258-264) — the candidate is kept;
* `topic["description"].strip()` (line 271) raises on a missing or
  non-string description, dropping the candidate. -/
def validateTopic (topic : RawTopic) : Option Topic :=
  match topic.title with
  | some (.vStr title) =>
    if title.length < 10 then none
    else
      match topic.category with
      | some (.vStr cat) =>
        if cat ∈ categoryKeys then
          match topic.difficulty with
          | some (.vStr diff) =>
            if diff ∈ difficultyKeys then
              match topic.keyPoints with
              | some (.vList kps) =>
                if kps.length = 0 then none
                else
                  match topic.duration with
                  | some dv =>
                    let dur : Rat := coerceDuration dv
                    match topic.technologies with
                    | some tv =>
                      let techs : List Value := coerceTechnologies tv
                      match topic.description with
                      | some (.vStr desc) =>
                        some { title := pstrip title
                               category := cat
                               difficulty := diff
                               description := pstrip desc
                               keyPoints := (kps.take 5).map (fun p => pstrip (pyStr p))
                               duration := truncQ dur
                               technologies := (techs.take 6).map (fun p => pstrip (pyStr p)) }
                      | _ => none
                    | none => none
                  | none => none
              | _ => none
            else none
          | _ => none
        else none
      | _ => none
  | _ => none

/-- `_validate_topics` (`interview_agent.py:227-288`).  Python compares
`len(validated_topics) < expected_count * 0.7` with a float product; for an
integer length this is the exact rational comparison
`10 * length < 7 * expected_count`, which is how it is written here. -/
def _validate_topics (topics : List RawTopic) (expected_count : Nat) :
    Except String (List Topic) :=
  let validated_topics := topics.filterMap validateTopic
  if 10 * validated_topics.length < 7 * expected_count then
    .error ("Too few valid topics generated: " ++ toString validated_topics.length
      ++ "/" ++ toString expected_count)
  else
    .ok validated_topics

/-- Decidable equality for `Except`, so that concrete runs of the embedded
operations can be checked by `decide`. -/
instance {ε α : Type} [DecidableEq ε] [DecidableEq α] : DecidableEq (Except ε α)
  | .ok a, .ok b =>
    if h : a = b then .isTrue (by rw [h])
    else .isFalse (by intro hh; injection hh; contradiction)
  | .ok _, .error _ => .isFalse (by intro h; exact Except.noConfusion h)
  | .error _, .ok _ => .isFalse (by intro h; exact Except.noConfusion h)
  | .error a, .error b =>
    if h : a = b then .isTrue (by rw [h])
    else .isFalse (by intro hh; injection hh; contradiction)

/-- One invocation of the text-generation collaborator
(`self.model.generate_content`): either a response carrying `response.text`
(the empty string models a falsy/absent text) or a raised exception with its
message. -/
inductive GenOutcome where
  | success (text : String)
  | failure (err : String)
deriving DecidableEq, Repr

/-- Observable behaviour of one `_generate_with_retry` call: the returned
value or re-raised error, the number of collaborator invocations, and the
backoff sleeps (in seconds) in order. -/
structure RetryTrace where
  result : Except String (Option String)
  calls : Nat
  sleeps : List Nat
deriving DecidableEq, Repr

/-- Does this collaborator outcome take the failure path of the retry loop
(a raised exception, or a response whose text is falsy — the latter raises
`ValueError("Empty response from model")` inside the `try`)? -/
def transientFail : GenOutcome → Bool
  | .success t => t == ""
  | .failure _ => true

/-- The error message carried by the failure path for this outcome. -/
def failMsg : GenOutcome → String
  | .success _ => "Empty response from model"
  | .failure e => e

/-- The `for attempt in range(max_retries)` loop of `_generate_with_retry`
(`interview_agent.py:179-197`), over the remaining attempt indices.  On a
non-empty response the stripped text is returned at once; on a raised error
(or the `ValueError` raised for an empty response) the last attempt
re-raises and every earlier attempt sleeps `2 ** attempt` seconds and
continues.  Falling out of the loop (only possible when `max_retries = 0`)
returns Python's implicit `None`. -/
def retryLoop (gen : Nat → GenOutcome) (max_retries : Nat) : List Nat → RetryTrace
  | [] => ⟨.ok none, 0, []⟩
  | attempt :: rest =>
    match gen attempt with
    | .success t =>
      if t == "" then
        if attempt = max_retries - 1 then ⟨.error "Empty response from model", 1, []⟩
        else
          let r := retryLoop gen max_retries rest
          ⟨r.result, r.calls + 1, 2 ^ attempt :: r.sleeps⟩
      else ⟨.ok (some (pstrip t)), 1, []⟩
    | .failure e =>
      if attempt = max_retries - 1 then ⟨.error e, 1, []⟩
      else
        let r := retryLoop gen max_retries rest
        ⟨r.result, r.calls + 1, 2 ^ attempt :: r.sleeps⟩

/-- `_generate_with_retry` (`interview_agent.py:177-197`), with the
collaborator passed explicitly: `gen attempt` is what
`self.model.generate_content` does on attempt number `attempt`
(0-based). -/
def _generate_with_retry (gen : Nat → GenOutcome) (max_retries : Nat) : RetryTrace :=
  retryLoop gen max_retries (List.range max_retries)

end InterviewTopicsAgent

/-- The `_metadata` block stamped by `insert_topics_document` on both
backends (`mongodb_client.py:102-106`, `firebase_client.py:108-112`). -/
structure Metadata where
  insertedAt : Nat
  version : String
  source : String
deriving DecidableEq, Repr

/-- `datetime.now(timezone.utc)` is the explicit `now` argument. -/
def mkMetadata (now : Nat) : Metadata :=
  { insertedAt := now, version := "1.0.0", source := "github-adk-agent" }

/-- A topic entry of a stored run document, restricted to the fields the
storage layer reads (`_validate_document` checks the presence of these four;
`get_stats` on the Firestore backend reads `category`/`difficulty`). -/
structure DocTopic where
  title : Option String
  category : Option String
  difficulty : Option String
  description : Option String
deriving DecidableEq, Repr

/-- The value stored under the `topics` key: a list, or some non-list value
(rejected by `_validate_document`). -/
inductive TopicsField where
  | isList (ts : List DocTopic)
  | notList
deriving DecidableEq, Repr

/-- A run document as passed to `insert_topics_document`: each key present
(`some`) or absent (`none`).  `metadata` is the `_metadata` key. -/
structure RunDoc where
  runId : Option String
  generatedAt : Option Nat
  model : Option String
  topics : Option TopicsField
  metadata : Option Metadata
deriving DecidableEq, Repr

/-- Errors raised by the storage layer. -/
inductive DbError where
  | notConnected (msg : String)
  | invalidDocument (msg : String)
  | duplicateRunId (msg : String)
deriving DecidableEq, Repr

/-- The inner loop of `_validate_document`: first error for a topic missing
one of the four required fields, scanning topics in order (`i` is the
0-based index of the first topic in `ts`). -/
def topicFieldError : Nat → List DocTopic → Option String
  | _, [] => none
  | i, t :: ts =>
    if t.title.isNone then some ("Topic " ++ toString (i + 1) ++ " missing required field: title")
    else if t.category.isNone then
      some ("Topic " ++ toString (i + 1) ++ " missing required field: category")
    else if t.difficulty.isNone then
      some ("Topic " ++ toString (i + 1) ++ " missing required field: difficulty")
    else if t.description.isNone then
      some ("Topic " ++ toString (i + 1) ++ " missing required field: description")
    else topicFieldError (i + 1) ts

/-- `_validate_document` (identical in `mongodb_client.py:121-141` and
`firebase_client.py:133-153`): `some msg` is the raised `ValueError`'s
message, `none` means the document is accepted. -/
def _validate_document (document : RunDoc) : Option String :=
  if document.runId.isNone then some "Missing required field: runId"
  else if document.generatedAt.isNone then some "Missing required field: generatedAt"
  else if document.model.isNone then some "Missing required field: model"
  else
    match document.topics with
    | none => some "Missing required field: topics"
    | some .notList => some "Topics must be a list"
    | some (.isList ts) =>
      if ts.isEmpty then some "Topics list cannot be empty"
      else topicFieldError 0 ts

namespace MongoDBClient

/-- The observable state of a `MongoDBClient`: the `connected` flag and the
contents of the `topics` collection in insertion order.  `connect` installs a
unique index on `runId` (`_ensure_indexes`), which is what makes
`insert_one` raise `DuplicateKeyError` on a second document with the same
`runId`. -/
structure State where
  connected : Bool
  docs : List RunDoc
deriving DecidableEq, Repr

/-- `insert_topics_document` (`mongodb_client.py:92-119`).  Returns the
result (`str(result.inserted_id)` on success — the driver-assigned ObjectId
is modelled as the insertion index), the updated collection, and the
caller's document object after the call (the `_metadata` stamp on lines
102-106 mutates it in place). -/
def insert_topics_document (s : State) (document : RunDoc) (now : Nat) :
    Except DbError String × State × RunDoc :=
  if s.connected = false then
    (.error (.notConnected "Not connected to MongoDB"), s, document)
  else
    match _validate_document document with
    | some e => (.error (.invalidDocument e), s, document)
    | none =>
      let document := { document with metadata := some (mkMetadata now) }
      if s.docs.any (fun d => d.runId == document.runId) then
        (.error (.duplicateRunId ("Run ID already exists: "
          ++ (document.runId.getD "None"))), s, document)
      else
        (.ok (toString s.docs.length), { s with docs := s.docs ++ [document] }, document)

/-- `get_topics_by_run_id` (`mongodb_client.py:143-153`):
`find_one({"runId": run_id})`. -/
def get_topics_by_run_id (s : State) (run_id : String) :
    Except DbError (Option RunDoc) :=
  if s.connected = false then .error (.notConnected "Not connected to MongoDB")
  else .ok (s.docs.find? (fun d => d.runId == some run_id))

end MongoDBClient

/-- The topics array of a stored document, as the aggregation / iteration
code sees it.  Every document reaches a store through
`insert_topics_document`, whose validation guarantees `topics` is a
non-empty list, so the defaults for the other shapes are never exercised on
a reachable store. -/
def docTopics (d : RunDoc) : List DocTopic :=
  match d.topics with
  | some (.isList ts) => ts
  | _ => []

/-- The shape returned by `get_stats` on both backends.  The two
distribution dictionaries are association lists tag ↦ count. -/
structure Stats where
  totalDocuments : Nat
  totalTopics : Nat
  lastGeneration : Option Nat
  categoriesDistribution : List (String × Nat)
  difficultiesDistribution : List (String × Nat)
deriving DecidableEq, Repr

/-- Add one occurrence of `k` to an association list of counts (first
occurrence keeps its position, a new key is appended — Python dict update
order). -/
def bumpCount (acc : List (String × Nat)) (k : String) : List (String × Nat) :=
  match acc with
  | [] => [(k, 1)]
  | (k0, c) :: rest =>
    if k0 = k then (k0, c + 1) :: rest else (k0, c) :: bumpCount rest k

/-- Group a list of tags into tag ↦ occurrence count. -/
def countBy (keys : List String) : List (String × Nat) := keys.foldl bumpCount []

/-- Stable insertion into a count-descending list (for the MongoDB
aggregation's `$sort: {count: -1}`). -/
def insertCountDesc (x : String × Nat) : List (String × Nat) → List (String × Nat)
  | [] => [x]
  | y :: ys => if y.2 < x.2 then x :: y :: ys else y :: insertCountDesc x ys

/-- Sort an association list of counts by count, descending (stable). -/
def sortCountDesc (l : List (String × Nat)) : List (String × Nat) :=
  l.foldr insertCountDesc []

namespace MongoDBClient

/-- `get_stats` (`mongodb_client.py:202-252`), with each aggregation
evaluated over the modelled collection:
* `count_documents({})` is the collection size;
* the `$size`/`$sum` pipeline yields no row on an empty collection, in
  which case the code falls back to `0`;
* `find().sort("generatedAt", -1).limit(1)` yields the `generatedAt` of the
  most recent document, or nothing on an empty collection;
* the `$unwind`/`$group`/`$sort` pipelines group the unwound topic tags and
  sort the counts descending (a missing tag groups under BSON `null`,
  rendered `"null"`; unreachable for stored documents). -/
def get_stats (s : State) : Except DbError Stats :=
  if s.connected = false then .error (.notConnected "Not connected to MongoDB")
  else
    let total_documents := s.docs.length
    let total_topics := if s.docs.isEmpty then 0
      else (s.docs.map (fun d => (docTopics d).length)).sum
    let last_generation := (s.docs.filterMap RunDoc.generatedAt).max?
    let categories := sortCountDesc (countBy
      ((s.docs.map (fun d => (docTopics d).map (fun t => t.category.getD "null"))).flatten))
    let difficulties := sortCountDesc (countBy
      ((s.docs.map (fun d => (docTopics d).map (fun t => t.difficulty.getD "null"))).flatten))
    .ok { totalDocuments := total_documents
          totalTopics := total_topics
          lastGeneration := last_generation
          categoriesDistribution := categories
          difficultiesDistribution := difficulties }

end MongoDBClient

/-- Python truthiness of the `last_generation` accumulator in the Firestore
`get_stats` loop (`None` and `0` are falsy). -/
def truthyOptNat : Option Nat → Bool
  | none => false
  | some n => n != 0

/-- One step of the `for doc in docs` accumulation of `last_generation`
(`firebase_client.py:250-252`): `if not last_generation or (gen_date and
gen_date > last_generation): last_generation = gen_date`. -/
def updateLastGen (last : Option Nat) (gen_date : Option Nat) : Option Nat :=
  if truthyOptNat last = false then gen_date
  else if truthyOptNat gen_date && (gen_date.getD 0 > last.getD 0) then gen_date
  else last

namespace FirebaseClient

/-- The observable state of a `FirebaseClient`: the `connected` flag and the
`topics` collection as an association of document id (the `runId`) to
document. -/
structure State where
  connected : Bool
  store : List (String × RunDoc)
deriving DecidableEq, Repr

/-- `insert_topics_document` (`firebase_client.py:98-131`).  Same return
convention as the MongoDB variant; on success the returned id is the
`runId`.  The duplicate check is an explicit `doc_ref.get().exists` probe
before `doc_ref.set`. -/
def insert_topics_document (s : State) (document : RunDoc) (now : Nat) :
    Except DbError String × State × RunDoc :=
  if s.connected = false then
    (.error (.notConnected "Not connected to Firestore"), s, document)
  else
    match _validate_document document with
    | some e => (.error (.invalidDocument e), s, document)
    | none =>
      let document := { document with metadata := some (mkMetadata now) }
      match document.runId with
      | some doc_id =>
        if (s.store.lookup doc_id).isSome then
          (.error (.duplicateRunId ("Run ID already exists: " ++ doc_id)), s, document)
        else
          (.ok doc_id, { s with store := s.store ++ [(doc_id, document)] }, document)
      | none =>
        -- unreachable: `_validate_document` accepted the document, so
        -- `document['runId']` cannot raise
        (.error (.invalidDocument "Missing required field: runId"), s, document)

/-- `get_topics_by_run_id` (`firebase_client.py:155-170`). -/
def get_topics_by_run_id (s : State) (run_id : String) :
    Except DbError (Option RunDoc) :=
  if s.connected = false then .error (.notConnected "Not connected to Firestore")
  else .ok ((s.store.lookup run_id))

/-- `get_stats` (`firebase_client.py:219-271`): the empty store returns the
zero-valued shape outright; otherwise one pass over the documents
accumulates the totals, the most recent `generatedAt`, and the two count
dictionaries (`.get('category', 'unknown')` defaults a missing tag). -/
def get_stats (s : State) : Except DbError Stats :=
  if s.connected = false then .error (.notConnected "Not connected to Firestore")
  else
    let docs := s.store.map Prod.snd
    if docs.length = 0 then
      .ok { totalDocuments := 0, totalTopics := 0, lastGeneration := none
            categoriesDistribution := [], difficultiesDistribution := [] }
    else
      let total_topics := (docs.map (fun d => (docTopics d).length)).sum
      let last_generation := docs.foldl (fun last d => updateLastGen last d.generatedAt) none
      let categories := countBy
        ((docs.map (fun d => (docTopics d).map (fun t => t.category.getD "unknown"))).flatten)
      let difficulties := countBy
        ((docs.map (fun d => (docTopics d).map (fun t => t.difficulty.getD "unknown"))).flatten)
      .ok { totalDocuments := docs.length
            totalTopics := total_topics
            lastGeneration := last_generation
            categoriesDistribution := categories
            difficultiesDistribution := difficulties }

end FirebaseClient

/-- The process environment, as seen through `os.getenv`. -/
def Env : Type := String → Option String

/-- Errors raised by `DatabaseFactory`. -/
inductive FactoryError where
  | unsupportedProvider (msg : String)
  | missingConfiguration (msg : String)
deriving DecidableEq, Repr

namespace DatabaseFactory

/-- Python `str.upper()`: upper-case each character (the ASCII case of
`Char.toUpper`, which is all this code base's provider tags need). -/
def pyUpper (s : String) : String := ⟨s.data.map Char.toUpper⟩

/-- `get_provider_name` (`database_factory.py:63-66`):
`os.getenv("DATABASE_PROVIDER", "MONGO").upper()` — the default applies only
when the variable is unset, not when it is set to the empty string. -/
def get_provider_name (env : Env) : String :=
  pyUpper ((env "DATABASE_PROVIDER").getD "MONGO")

/-- The `required_vars` table of `validate_provider_config`
(`database_factory.py:73-83`): variable name ↦ description per provider;
`none` for an unsupported provider. -/
def required_vars (provider : String) : Option (List (String × String)) :=
  if provider = "MONGO" then some [("MONGODB_URI", "MongoDB connection string")]
  else if provider = "FIREBASE" then some [("GOOGLE_CLOUD_PROJECT", "Firebase project ID")]
  else none

/-- An environment variable counts as set only when present and non-empty
(`if not value` treats the empty string as missing). -/
def envValue (env : Env) (var : String) : Option String :=
  match env var with
  | some s => if s = "" then none else some s
  | none => none

/-- The `env_vars` accumulator: each required variable that is set, with its
value, in table order. -/
def presentVarEntries (env : Env) (req : List (String × String)) :
    List (String × String) :=
  req.filterMap (fun vd => (envValue env vd.1).map (fun v => (vd.1, v)))

/-- The `missing_vars` accumulator: `f"{var} ({description})"` for each
required variable that is unset, in table order. -/
def missingVarEntries (env : Env) (req : List (String × String)) : List String :=
  req.filterMap (fun vd =>
    if (envValue env vd.1).isNone then some (vd.1 ++ " (" ++ vd.2 ++ ")") else none)

/-- What a `validate_provider_config` call does: the returned mapping or
raised error, plus the messages written to the error log. -/
structure ConfigOutcome where
  result : Except FactoryError (List (String × String))
  errorLog : List String
deriving Repr

/-- `validate_provider_config` (`database_factory.py:68-101`).  Note that
when variables are missing, each one is *logged*, but the raised error's
message only names the provider. -/
def validate_provider_config (env : Env) : ConfigOutcome :=
  let provider := get_provider_name env
  match required_vars provider with
  | none =>
    { result := .error (.unsupportedProvider ("Unsupported database provider: " ++ provider))
      errorLog := [] }
  | some req =>
    let missing_vars := missingVarEntries env req
    if missing_vars.isEmpty then
      { result := .ok (presentVarEntries env req), errorLog := [] }
    else
      { result := .error (.missingConfiguration
          ("Required " ++ provider ++ " environment variables not set"))
        errorLog := ("Missing required environment variables for " ++ provider ++ ":")
          :: missing_vars.map (fun v => "  - " ++ v) }

end DatabaseFactory

/-- Does `needle` occur as a contiguous substring of `hay`? -/
def containsSub (needle : List Char) : List Char → Bool
  | [] => needle.isPrefixOf []
  | c :: rest => needle.isPrefixOf (c :: rest) || containsSub needle rest

/-- Does the message `hay` mention the text `needle`? -/
def strMentions (hay needle : String) : Bool := containsSub needle.data hay.data

/-! ### Helper lemmas -/

theorem dropWhile_dropWhile (p : α → Bool) (l : List α) :
    (l.dropWhile p).dropWhile p = l.dropWhile p := by
  induction l with
  | nil => rfl
  | cons a l ih =>
    by_cases h : p a
    · simp [List.dropWhile_cons, h, ih]
    · simp [List.dropWhile_cons, h]

theorem dropWhile_eq_self_of_prefix (p : α → Bool) {q l : List α}
    (hl : l.dropWhile p = l) (hq : q <+: l) : q.dropWhile p = q := by
  cases q with
  | nil => rfl
  | cons a s =>
    obtain ⟨rest, hrest⟩ := hq
    have ha : p a = false := by
      by_contra hpa
      have hpa' : p a = true := by
        cases hh : p a
        · exact absurd hh hpa
        · rfl
      rw [← hrest] at hl
      simp only [List.cons_append, List.dropWhile_cons_of_pos hpa'] at hl
      have hlen : ((s ++ rest).dropWhile p).length ≤ (s ++ rest).length :=
        (List.dropWhile_sublist p).length_le
      rw [hl] at hlen
      simp at hlen
    simp [List.dropWhile_cons, ha]

theorem stripChars_idem (l : List Char) : stripChars (stripChars l) = stripChars l := by
  unfold stripChars
  set p := Char.isWhitespace with hp
  set u := l.dropWhile p with hu
  set w := u.reverse.dropWhile p with hw
  -- the trimmed list `w.reverse` is a prefix of `u`, whose dropWhile is itself
  have hclean_u : u.dropWhile p = u := dropWhile_dropWhile p l
  have hpre : w.reverse <+: u := by
    have : w.reverse <+: u.reverse.reverse := List.reverse_prefix.mpr (List.dropWhile_suffix p)
    simpa using this
  have h1 : w.reverse.dropWhile p = w.reverse := dropWhile_eq_self_of_prefix p hclean_u hpre
  rw [h1]
  have h2 : w.reverse.reverse.dropWhile p = w := by
    rw [List.reverse_reverse, hw, dropWhile_dropWhile]
  rw [h2]

theorem pstrip_idem (s : String) : pstrip (pstrip s) = pstrip s := by
  unfold pstrip
  exact congrArg String.mk (stripChars_idem s.data)

theorem truncQ_intCast (n : Int) (h : 0 ≤ n) : truncQ (n : Rat) = n := by
  unfold truncQ
  have h0 : (0 : Rat) ≤ (n : Rat) := by exact_mod_cast h
  rw [if_pos h0, Int.floor_intCast]

theorem truncQ_bounds {q : Rat} (h15 : 15 ≤ q) (h120 : q ≤ 120) :
    15 ≤ truncQ q ∧ truncQ q ≤ 120 := by
  unfold truncQ
  have h0 : (0 : Rat) ≤ q := le_trans (by norm_num) h15
  rw [if_pos h0]
  constructor
  · rw [Int.le_floor]
    exact_mod_cast h15
  · by_contra hgt
    push_neg at hgt
    have : (121 : Int) ≤ ⌊q⌋ := hgt
    rw [Int.le_floor] at this
    have : (121 : Rat) ≤ 120 := le_trans this h120
    norm_num at this

namespace InterviewTopicsAgent

/-- The corrected duration is always in range after `int(...)` truncation. -/
theorem coerceDuration_truncQ_bounds (dv : Value) :
    15 ≤ truncQ (coerceDuration dv) ∧ truncQ (coerceDuration dv) ≤ 120 := by
  have h30 : 15 ≤ truncQ 30 ∧ truncQ 30 ≤ 120 :=
    truncQ_bounds (by norm_num) (by norm_num)
  cases dv with
  | vInt n =>
    simp only [coerceDuration]
    split
    · exact h30
    · next hc =>
      push_neg at hc
      refine truncQ_bounds ?_ ?_
      · exact_mod_cast hc.1
      · exact_mod_cast hc.2
  | vFloat q =>
    simp only [coerceDuration]
    split
    · exact h30
    · next hc =>
      push_neg at hc
      exact truncQ_bounds hc.1 hc.2
  | vStr s => exact h30
  | vList l => exact h30
  | vNone => exact h30

/-- Everything that holds of a candidate that survives `validateTopic`. -/
theorem validateTopic_some_spec {r : RawTopic} {t : Topic}
    (h : validateTopic r = some t) :
    (∃ s, 10 ≤ s.length ∧ t.title = pstrip s) ∧
    t.category ∈ categoryKeys ∧
    t.difficulty ∈ difficultyKeys ∧
    (∃ s, t.description = pstrip s) ∧
    t.keyPoints ≠ [] ∧ t.keyPoints.length ≤ 5 ∧ (∀ p ∈ t.keyPoints, pstrip p = p) ∧
    15 ≤ t.duration ∧ t.duration ≤ 120 ∧
    t.technologies.length ≤ 6 ∧ (∀ p ∈ t.technologies, pstrip p = p) := by
  unfold validateTopic at h
  repeat' (first | (exact Option.noConfusion h) | (split at h))
  injection h with h
  subst h
  refine ⟨?_, ?_, ?_, ?_, ?_, ?_, ?_, ?_, ?_, ?_, ?_⟩
  · refine ⟨_, ?_, rfl⟩
    omega
  · assumption
  · assumption
  · exact ⟨_, rfl⟩
  · intro hh
    have hlen := congrArg List.length hh
    simp only [List.length_map, List.length_take, List.length_nil] at hlen
    omega
  · simp only [List.length_map, List.length_take]
    omega
  · intro p hp
    simp only [List.mem_map] at hp
    obtain ⟨v, _, rfl⟩ := hp
    exact pstrip_idem _
  · exact (coerceDuration_truncQ_bounds _).1
  · exact (coerceDuration_truncQ_bounds _).2
  · simp only [List.length_map, List.length_take]
    omega
  · intro p hp
    simp only [List.mem_map] at hp
    obtain ⟨v, _, rfl⟩ := hp
    exact pstrip_idem _

end InterviewTopicsAgent

namespace InterviewTopicsAgent

/-- A successful `_validate_topics` run returns exactly the survivors of the
per-candidate validation. -/
theorem _validate_topics_ok {topics : List RawTopic} {n : Nat} {out : List Topic}
    (h : _validate_topics topics n = .ok out) :
    out = topics.filterMap validateTopic := by
  unfold _validate_topics at h
  dsimp only [] at h
  split at h
  · exact Except.noConfusion h
  · injection h with h
    exact h.symm

/-- Every topic of a successful `_validate_topics` run comes from some
candidate that survived `validateTopic`. -/
theorem mem_of_validate_topics_ok {topics : List RawTopic} {n : Nat}
    {out : List Topic} {t : Topic} (h : _validate_topics topics n = .ok out)
    (ht : t ∈ out) : ∃ r ∈ topics, validateTopic r = some t := by
  rw [_validate_topics_ok h] at ht
  exact List.mem_filterMap.mp ht

end InterviewTopicsAgent

/-! ### Concrete fixtures used by witnesses and counterexamples -/

/-- A fully valid candidate record. -/
def rawGood : RawTopic :=
  { title := some (.vStr "Database Performance Optimization")
    category := some (.vStr "technical_coding")
    difficulty := some (.vStr "senior")
    description := some (.vStr "Analyze and optimize slow queries.")
    keyPoints := some (.vList [.vStr "Index optimization", .vStr "Query analysis"])
    duration := some (.vInt 40)
    technologies := some (.vList [.vStr "PostgreSQL", .vStr "Redis"]) }

/-- The cleaned topic `rawGood` validates to. -/
def tGood : Topic :=
  { title := "Database Performance Optimization"
    category := "technical_coding"
    difficulty := "senior"
    description := "Analyze and optimize slow queries."
    keyPoints := ["Index optimization", "Query analysis"]
    duration := 40
    technologies := ["PostgreSQL", "Redis"] }

/-- A candidate whose title is 10 characters long but only 1 character after
trimming: `"a"` followed by 9 spaces. -/
def rawPadTitle : RawTopic :=
  { title := some (.vStr "a         ")
    category := some (.vStr "behavioral")
    difficulty := some (.vStr "junior")
    description := some (.vStr "d")
    keyPoints := some (.vList [.vStr "k"])
    duration := some (.vInt 30)
    technologies := some (.vList []) }

/-- The cleaned topic `rawPadTitle` validates to: its title is `"a"`. -/
def tPad : Topic :=
  { title := "a", category := "behavioral", difficulty := "junior"
    description := "d", keyPoints := ["k"], duration := 30, technologies := [] }

/-- An invalid candidate: the title field is absent (reading it raises
`KeyError`, dropping the candidate). -/
def rawNoTitle : RawTopic := { rawGood with title := none }

/-- A candidate that fails mid-cleaning: its description is a number, so
`topic["description"].strip()` raises `AttributeError` and the candidate is
dropped by the per-candidate `except` clause. -/
def rawBadDesc : RawTopic := { rawGood with description := some (.vInt 5) }

/-- 10 candidates of which exactly 7 survive: the 70% boundary for
`requested_count = 10`. -/
def boundaryBatch : List RawTopic :=
  List.replicate 7 rawGood ++ List.replicate 3 rawNoTitle

/-! ### C1 -/

/-- **C1, counterexample.**  The claim says every topic returned by
`_validate_topics` has a trimmed title of length ≥ 10.  The length check
runs *before* trimming, so the candidate `rawPadTitle` (title `"a"` plus 9
spaces) survives, and the returned topic's title `"a"` has trimmed length
1 < 10. -/
theorem validator_trimmed_title_counterexample :
    InterviewTopicsAgent._validate_topics [rawPadTitle] 1 = .ok [tPad] ∧
    (pstrip tPad.title).length < 10 := by
  constructor
  · decide
  · decide

/-- **C1 (amended).**  Every topic returned by `_validate_topics` satisfies:
its title is the trim of a candidate title whose *untrimmed* length is ≥ 10
(the trimmed title itself may be shorter), its category is in the fixed
8-element category set, its difficulty is in the fixed 4-element difficulty
set, its `keyPoints` is a non-empty sequence of at most 5 trimmed strings,
its `technologies` is a sequence of at most 6 trimmed strings, and its
duration is an integer in [15, 120]. -/
theorem validator_survivor_invariant
    (topics : List RawTopic) (requested_count : Nat) (out : List Topic) (t : Topic)
    (h : InterviewTopicsAgent._validate_topics topics requested_count = .ok out)
    (ht : t ∈ out) :
    (∃ s, 10 ≤ s.length ∧ t.title = pstrip s) ∧
    t.category ∈ InterviewTopicsAgent.categoryKeys ∧
    t.difficulty ∈ InterviewTopicsAgent.difficultyKeys ∧
    t.keyPoints ≠ [] ∧ t.keyPoints.length ≤ 5 ∧ (∀ p ∈ t.keyPoints, pstrip p = p) ∧
    t.technologies.length ≤ 6 ∧ (∀ p ∈ t.technologies, pstrip p = p) ∧
    15 ≤ t.duration ∧ t.duration ≤ 120 := by
  obtain ⟨r, _, hr⟩ := InterviewTopicsAgent.mem_of_validate_topics_ok h ht
  obtain ⟨h1, h2, h3, _, h5, h6, h7, h8, h9, h10, h11⟩ :=
    InterviewTopicsAgent.validateTopic_some_spec hr
  exact ⟨h1, h2, h3, h5, h6, h7, h10, h11, h8, h9⟩

/-- **C1, witness.** -/
theorem validator_survivor_invariant_witness :
    (∃ s, 10 ≤ s.length ∧ tGood.title = pstrip s) ∧
    tGood.category ∈ InterviewTopicsAgent.categoryKeys ∧
    tGood.difficulty ∈ InterviewTopicsAgent.difficultyKeys ∧
    tGood.keyPoints ≠ [] ∧ tGood.keyPoints.length ≤ 5 ∧
    (∀ p ∈ tGood.keyPoints, pstrip p = p) ∧
    tGood.technologies.length ≤ 6 ∧ (∀ p ∈ tGood.technologies, pstrip p = p) ∧
    15 ≤ tGood.duration ∧ tGood.duration ≤ 120 :=
  validator_survivor_invariant [rawGood] 1 [tGood] tGood (by decide) (by decide)

/-! ### C2 -/

/-- **C2.**  `_validate_topics` fails exactly when the number of survivors is
below `⌈0.7 * requested_count⌉` (written `(7 * n + 9) / 10` in natural-number
arithmetic), and otherwise returns the survivors unchanged — in particular
it succeeds at exactly the 70% boundary and performs no padding. -/
theorem validator_yield_threshold (topics : List RawTopic) (requested_count : Nat)
    (_hpos : 0 < requested_count) :
    ((∃ e, InterviewTopicsAgent._validate_topics topics requested_count = .error e) ↔
      (topics.filterMap InterviewTopicsAgent.validateTopic).length
        < (7 * requested_count + 9) / 10) ∧
    ((7 * requested_count + 9) / 10 ≤
        (topics.filterMap InterviewTopicsAgent.validateTopic).length →
      InterviewTopicsAgent._validate_topics topics requested_count =
        .ok (topics.filterMap InterviewTopicsAgent.validateTopic)) := by
  unfold InterviewTopicsAgent._validate_topics
  dsimp only []
  constructor
  · constructor
    · intro ⟨e, he⟩
      split at he
      · next hc => omega
      · exact Except.noConfusion he
    · intro hlt
      exact ⟨_, by rw [if_pos (by omega)]⟩
  · intro hge
    rw [if_neg]
    omega

/-- **C2, witness**: 10 candidates of which exactly 7 survive — the 70%
boundary — so the validator succeeds and returns exactly those 7. -/
theorem validator_yield_threshold_witness :
    ((∃ e, InterviewTopicsAgent._validate_topics boundaryBatch 10 = .error e) ↔
      (boundaryBatch.filterMap InterviewTopicsAgent.validateTopic).length
        < (7 * 10 + 9) / 10) ∧
    ((7 * 10 + 9) / 10 ≤
        (boundaryBatch.filterMap InterviewTopicsAgent.validateTopic).length →
      InterviewTopicsAgent._validate_topics boundaryBatch 10 =
        .ok (boundaryBatch.filterMap InterviewTopicsAgent.validateTopic)) :=
  validator_yield_threshold boundaryBatch 10 (by decide)

/-! ### C5 -/

/-- **C5.**  A candidate on which per-candidate processing fails (modelled by
`validateTopic bad = none`, which covers both explicit skips and exceptions
caught by the per-candidate `except` clause) is dropped alone: the validator
never aborts the batch, and the outcome is the same as if the candidate had
been absent. -/
theorem validator_drops_only_failing_candidate
    (xs ys : List RawTopic) (bad : RawTopic) (requested_count : Nat)
    (hbad : InterviewTopicsAgent.validateTopic bad = none) :
    InterviewTopicsAgent._validate_topics (xs ++ bad :: ys) requested_count =
      InterviewTopicsAgent._validate_topics (xs ++ ys) requested_count := by
  unfold InterviewTopicsAgent._validate_topics
  simp [List.filterMap_append, List.filterMap_cons, hbad]

/-- **C5, witness**: a candidate whose description is a number fails
mid-cleaning (`.strip()` on an `int` raises) and is dropped alone. -/
theorem validator_drops_only_failing_candidate_witness :
    InterviewTopicsAgent.validateTopic rawBadDesc = none ∧
    InterviewTopicsAgent._validate_topics [rawGood, rawBadDesc] 1 =
      InterviewTopicsAgent._validate_topics [rawGood] 1 :=
  ⟨by decide, validator_drops_only_failing_candidate [rawGood] [] rawBadDesc 1 (by decide)⟩

/-- Re-stripping already-stripped strings embedded as `Value.vStr` is the
identity. -/
theorem map_pstrip_vStr (l : List String) (h : ∀ p ∈ l, pstrip p = p) :
    (l.map Value.vStr).map (fun p => pstrip (pyStr p)) = l := by
  induction l with
  | nil => rfl
  | cons a l ih =>
    simp only [List.map_cons]
    rw [ih (fun p hp => h p (by simp [hp]))]
    simp only [pyStr]
    rw [h a (by simp)]

/-! ### C4 -/

/-- **C4, counterexample.**  Validation is not idempotent: `rawPadTitle`
validates to `tPad`, whose title `"a"` is shorter than 10 characters, so
re-validating `[tPad]` rejects it and fails the yield threshold instead of
returning `[tPad]` unchanged. -/
theorem validator_idempotence_counterexample :
    InterviewTopicsAgent._validate_topics [rawPadTitle] 1 = .ok [tPad] ∧
    InterviewTopicsAgent._validate_topics [Topic.toRaw tPad] 1 =
      .error "Too few valid topics generated: 0/1" := by
  constructor
  · decide
  · decide

/-- **C4 (amended).**  Re-validating a validator output whose title still has
length ≥ 10 returns it byte-identically: every output topic `t` of a
successful `_validate_topics` run with `10 ≤ t.title.length` satisfies
`_validate_topics [t] 1 = ok [t]`. -/
theorem validator_idempotent_on_long_titles
    (topics : List RawTopic) (requested_count : Nat) (out : List Topic) (t : Topic)
    (h : InterviewTopicsAgent._validate_topics topics requested_count = .ok out)
    (ht : t ∈ out) (hlen : 10 ≤ t.title.length) :
    InterviewTopicsAgent._validate_topics [Topic.toRaw t] 1 = .ok [t] := by
  obtain ⟨r, _, hr⟩ := InterviewTopicsAgent.mem_of_validate_topics_ok h ht
  obtain ⟨⟨s1, _, htitle⟩, h2, h3, ⟨s2, hdesc⟩, h5, h6, h7, h8, h9, h10, h11⟩ :=
    InterviewTopicsAgent.validateTopic_some_spec hr
  have hre : InterviewTopicsAgent.validateTopic (Topic.toRaw t) = some t := by
    unfold InterviewTopicsAgent.validateTopic Topic.toRaw
    dsimp only []
    rw [if_neg (by omega), if_pos h2, if_pos h3,
      if_neg (by simp only [List.length_map, List.length_eq_zero]; exact h5)]
    have hdur : InterviewTopicsAgent.coerceDuration (.vInt t.duration) = (t.duration : Rat) := by
      simp only [InterviewTopicsAgent.coerceDuration]
      rw [if_neg (by omega)]
    have htitle' : pstrip t.title = t.title := by
      rw [htitle, pstrip_idem]
    have hdesc' : pstrip t.description = t.description := by
      rw [hdesc, pstrip_idem]
    have hkp : ((t.keyPoints.map Value.vStr).take 5).map (fun p => pstrip (pyStr p))
        = t.keyPoints := by
      rw [← List.map_take, List.take_of_length_le h6]
      exact map_pstrip_vStr t.keyPoints h7
    have htech : ((InterviewTopicsAgent.coerceTechnologies
          (.vList (t.technologies.map Value.vStr))).take 6).map (fun p => pstrip (pyStr p))
        = t.technologies := by
      simp only [InterviewTopicsAgent.coerceTechnologies]
      rw [← List.map_take, List.take_of_length_le h10]
      exact map_pstrip_vStr t.technologies h11
    have hdi : truncQ ((t.duration : Int) : Rat) = t.duration :=
      truncQ_intCast t.duration (by omega)
    rw [hdur, htitle', hdesc', hkp, htech, hdi]
  unfold InterviewTopicsAgent._validate_topics
  dsimp only []
  rw [List.filterMap_cons, hre]
  simp

/-- **C4, witness.** -/
theorem validator_idempotent_on_long_titles_witness :
    InterviewTopicsAgent._validate_topics [Topic.toRaw tGood] 1 = .ok [tGood] :=
  validator_idempotent_on_long_titles [rawGood] 1 [tGood] tGood
    (by decide) (by decide) (by decide)

/-! ### C6 -/

open InterviewTopicsAgent (GenOutcome transientFail failMsg)

/-- A collaborator that raises on every invocation, with a distinct message
per attempt. -/
def failEveryTime : Nat → GenOutcome := fun i => .failure ("boom " ++ toString i)

/-- A collaborator that fails once and then returns text (with surrounding
whitespace, to exercise the `.strip()` on the return path). -/
def succAtSecond : Nat → GenOutcome := fun i =>
  if i = 0 then .failure "transient" else .success "  generated text  "

/-- **C6, counterexample.**  The claim says the wrapper sleeps 1s, 2s and
then 4s before retries.  With 3 total attempts there are only 2 retries:
against an always-failing collaborator the wrapper makes exactly 3 calls,
sleeps `[1, 2]` (never 4s), and re-raises the third attempt's error. -/
theorem retry_backoff_counterexample :
    (InterviewTopicsAgent._generate_with_retry failEveryTime 3).sleeps = [1, 2] ∧
    (InterviewTopicsAgent._generate_with_retry failEveryTime 3).sleeps ≠ [1, 2, 4] ∧
    (InterviewTopicsAgent._generate_with_retry failEveryTime 3).calls = 3 ∧
    (InterviewTopicsAgent._generate_with_retry failEveryTime 3).result =
      .error "boom 2" := by
  refine ⟨by decide, by decide, by decide, by decide⟩

/-- **C6 (amended).**  `_generate_with_retry` with `max_retries = 3` makes at
most 3 collaborator invocations (i.e. up to 2 retries).  If every attempt
fails transiently (a raised error, or an empty response — which raises
`ValueError` inside the `try`), it sleeps `2 ** attempt` seconds before each
retry — `[1, 2]`, never 4s — and after the third failure re-raises that last
error unmodified.  If some attempt `k` returns non-empty text after `k`
transient failures, it returns that text (stripped) immediately: `k + 1`
calls, sleeps `[2 ** 0, ..., 2 ** (k-1)]`, no further attempts. -/
theorem retry_behavior (gen : Nat → GenOutcome) :
    ((∀ i, i < 3 → transientFail (gen i) = true) →
      InterviewTopicsAgent._generate_with_retry gen 3 =
        { result := .error (failMsg (gen 2)), calls := 3, sleeps := [1, 2] }) ∧
    (∀ k t, k < 3 → (∀ i, i < k → transientFail (gen i) = true) →
      gen k = .success t → t ≠ "" →
      InterviewTopicsAgent._generate_with_retry gen 3 =
        { result := .ok (some (pstrip t)), calls := k + 1,
          sleeps := (List.range k).map (2 ^ ·) }) := by
  have hrange : List.range 3 = [0, 1, 2] := by decide
  constructor
  · intro h
    have h0 := h 0 (by omega)
    have h1 := h 1 (by omega)
    have h2 := h 2 (by omega)
    unfold InterviewTopicsAgent._generate_with_retry
    rw [hrange]
    cases hg0 : gen 0 with
    | success t0 =>
      have ht0 : (t0 == "") = true := by
        simpa [transientFail, hg0] using h0
      cases hg1 : gen 1 with
      | success t1 =>
        have ht1 : (t1 == "") = true := by
          simpa [transientFail, hg1] using h1
        cases hg2 : gen 2 with
        | success t2 =>
          have ht2 : (t2 == "") = true := by
            simpa [transientFail, hg2] using h2
          simp [InterviewTopicsAgent.retryLoop, hg0, hg1, hg2, ht0, ht1, ht2, failMsg]
        | failure e2 =>
          simp [InterviewTopicsAgent.retryLoop, hg0, hg1, hg2, ht0, ht1, failMsg]
      | failure e1 =>
        cases hg2 : gen 2 with
        | success t2 =>
          have ht2 : (t2 == "") = true := by
            simpa [transientFail, hg2] using h2
          simp [InterviewTopicsAgent.retryLoop, hg0, hg1, hg2, ht0, ht2, failMsg]
        | failure e2 =>
          simp [InterviewTopicsAgent.retryLoop, hg0, hg1, hg2, ht0, failMsg]
    | failure e0 =>
      cases hg1 : gen 1 with
      | success t1 =>
        have ht1 : (t1 == "") = true := by
          simpa [transientFail, hg1] using h1
        cases hg2 : gen 2 with
        | success t2 =>
          have ht2 : (t2 == "") = true := by
            simpa [transientFail, hg2] using h2
          simp [InterviewTopicsAgent.retryLoop, hg0, hg1, hg2, ht1, ht2, failMsg]
        | failure e2 =>
          simp [InterviewTopicsAgent.retryLoop, hg0, hg1, hg2, ht1, failMsg]
      | failure e1 =>
        cases hg2 : gen 2 with
        | success t2 =>
          have ht2 : (t2 == "") = true := by
            simpa [transientFail, hg2] using h2
          simp [InterviewTopicsAgent.retryLoop, hg0, hg1, hg2, ht2, failMsg]
        | failure e2 =>
          simp [InterviewTopicsAgent.retryLoop, hg0, hg1, hg2, failMsg]
  · intro k t hk hprev hgk ht
    have htb : (t == "") = false := by
      cases hb : t == "" with
      | false => rfl
      | true => exact absurd (by simpa using hb) ht
    unfold InterviewTopicsAgent._generate_with_retry
    rw [hrange]
    interval_cases k
    · simp [InterviewTopicsAgent.retryLoop, hgk, htb]
    · have h0 := hprev 0 (by omega)
      cases hg0 : gen 0 with
      | success t0 =>
        have ht0 : (t0 == "") = true := by
          simpa [transientFail, hg0] using h0
        (simp [InterviewTopicsAgent.retryLoop, hg0, hgk, ht0, htb, List.range]; decide)
      | failure e0 =>
        (simp [InterviewTopicsAgent.retryLoop, hg0, hgk, htb, List.range]; decide)
    · have h0 := hprev 0 (by omega)
      have h1 := hprev 1 (by omega)
      cases hg0 : gen 0 with
      | success t0 =>
        have ht0 : (t0 == "") = true := by
          simpa [transientFail, hg0] using h0
        cases hg1 : gen 1 with
        | success t1 =>
          have ht1 : (t1 == "") = true := by
            simpa [transientFail, hg1] using h1
          (simp [InterviewTopicsAgent.retryLoop, hg0, hg1, hgk, ht0, ht1, htb, List.range]; decide)
        | failure e1 =>
          (simp [InterviewTopicsAgent.retryLoop, hg0, hg1, hgk, ht0, htb, List.range]; decide)
      | failure e0 =>
        cases hg1 : gen 1 with
        | success t1 =>
          have ht1 : (t1 == "") = true := by
            simpa [transientFail, hg1] using h1
          (simp [InterviewTopicsAgent.retryLoop, hg0, hg1, hgk, ht1, htb, List.range]; decide)
        | failure e1 =>
          (simp [InterviewTopicsAgent.retryLoop, hg0, hg1, hgk, htb, List.range]; decide)

/-- **C6, witness.** -/
theorem retry_behavior_witness :
    InterviewTopicsAgent._generate_with_retry failEveryTime 3 =
      { result := .error (failMsg (failEveryTime 2)), calls := 3, sleeps := [1, 2] } ∧
    InterviewTopicsAgent._generate_with_retry succAtSecond 3 =
      { result := .ok (some (pstrip "  generated text  ")), calls := 1 + 1,
        sleeps := (List.range 1).map (2 ^ ·) } :=
  ⟨(retry_behavior failEveryTime).1 (by decide),
   (retry_behavior succAtSecond).2 1 "  generated text  " (by decide) (by decide)
     (by decide) (by decide)⟩

/-! ### Storage fixtures -/

/-- A stored topic entry with all four required fields. -/
def docTopic1 : DocTopic :=
  { title := some "Microservices vs Monolith", category := some "system_design"
    difficulty := some "senior", description := some "Discuss trade-offs." }

/-- A well-formed run document without `_metadata`. -/
def runDoc1 : RunDoc :=
  { runId := some "run-1", generatedAt := some 5, model := some "gemini-pro"
    topics := some (.isList [docTopic1]), metadata := none }

/-- A second well-formed run document carrying the same `runId`. -/
def runDoc2 : RunDoc :=
  { runId := some "run-1", generatedAt := some 9, model := some "gemini-pro"
    topics := some (.isList [docTopic1, docTopic1]), metadata := none }

/-- A connected MongoDB client over an empty collection. -/
def mongoEmpty : MongoDBClient.State := { connected := true, docs := [] }

/-- A connected Firestore client over an empty collection. -/
def fsEmpty : FirebaseClient.State := { connected := true, store := [] }

/-! ### Shared facts about `insert_topics_document` on both backends -/

/-- Inserting a well-formed document with a fresh `runId` into a connected
MongoDB store succeeds and appends the stamped document. -/
theorem mongo_insert_fresh_eq (s : MongoDBClient.State) (d : RunDoc) (r : String)
    (t : Nat) (hc : s.connected = true) (hv : _validate_document d = none)
    (hr : d.runId = some r) (hfresh : ∀ d0 ∈ s.docs, d0.runId ≠ some r) :
    MongoDBClient.insert_topics_document s d t =
      (.ok (toString s.docs.length),
       { s with docs := s.docs ++ [{ d with metadata := some (mkMetadata t) }] },
       { d with metadata := some (mkMetadata t) }) := by
  unfold MongoDBClient.insert_topics_document
  rw [hc]
  simp only [Bool.true_eq_false, if_false]
  rw [hv]
  have hdup : (s.docs.any
      (fun d0 => d0.runId == ({ d with metadata := some (mkMetadata t) } : RunDoc).runId))
      = false := by
    simp only [List.any_eq_false]
    intro d0 hd0
    simp only [beq_iff_eq, hr]
    exact hfresh d0 hd0
  rw [hdup]
  simp

/-- Inserting a well-formed document whose `runId` is already present in a
connected MongoDB store fails with `DuplicateRunId`, leaves the store
unchanged, and still stamps `_metadata` into the caller's document. -/
theorem mongo_insert_dup_eq (s : MongoDBClient.State) (d : RunDoc) (r : String)
    (t : Nat) (hc : s.connected = true) (hv : _validate_document d = none)
    (hr : d.runId = some r) (hdup : ∃ d0 ∈ s.docs, d0.runId = some r) :
    MongoDBClient.insert_topics_document s d t =
      (.error (.duplicateRunId ("Run ID already exists: " ++ r)), s,
       { d with metadata := some (mkMetadata t) }) := by
  unfold MongoDBClient.insert_topics_document
  rw [hc]
  simp only [Bool.true_eq_false, if_false]
  rw [hv]
  obtain ⟨d0, hd0, hd0r⟩ := hdup
  have hany : (s.docs.any
      (fun d0 => d0.runId == ({ d with metadata := some (mkMetadata t) } : RunDoc).runId))
      = true := by
    simp only [List.any_eq_true]
    exact ⟨d0, hd0, by simp [hd0r, hr]⟩
  rw [hany]
  simp [hr]

/-- Inserting a well-formed document with a fresh `runId` into a connected
Firestore store succeeds and stores the stamped document under that id. -/
theorem fs_insert_fresh_eq (s : FirebaseClient.State) (d : RunDoc) (r : String)
    (t : Nat) (hc : s.connected = true) (hv : _validate_document d = none)
    (hr : d.runId = some r) (hfresh : s.store.lookup r = none) :
    FirebaseClient.insert_topics_document s d t =
      (.ok r,
       { s with store := s.store ++ [(r, { d with metadata := some (mkMetadata t) })] },
       { d with metadata := some (mkMetadata t) }) := by
  unfold FirebaseClient.insert_topics_document
  rw [hc]
  simp only [Bool.true_eq_false, if_false]
  rw [hv]
  simp only [hr]
  rw [hfresh]
  simp

/-- Inserting a well-formed document whose `runId` already has a stored
document in a connected Firestore store fails with `DuplicateRunId`, leaves
the store unchanged, and still stamps `_metadata` into the caller's
document. -/
theorem fs_insert_dup_eq (s : FirebaseClient.State) (d : RunDoc) (r : String)
    (t : Nat) (hc : s.connected = true) (hv : _validate_document d = none)
    (hr : d.runId = some r) (hdup : (s.store.lookup r).isSome = true) :
    FirebaseClient.insert_topics_document s d t =
      (.error (.duplicateRunId ("Run ID already exists: " ++ r)), s,
       { d with metadata := some (mkMetadata t) }) := by
  unfold FirebaseClient.insert_topics_document
  rw [hc]
  simp only [Bool.true_eq_false, if_false]
  rw [hv]
  simp only [hr]
  rw [hdup]
  simp

/-! ### C3 -/

/-- **C3.**  On both backends, inserting two well-formed documents carrying
the same `runId` into a connected store where that `runId` is not yet
present succeeds exactly once: the first call returns `ok` and stores the
stamped document; the second call fails with `DuplicateRunId` and leaves the
store unchanged (no upsert). -/
theorem insert_duplicate_run_id :
    (∀ (s : MongoDBClient.State) (d1 d2 : RunDoc) (r : String) (t1 t2 : Nat),
      s.connected = true →
      _validate_document d1 = none → _validate_document d2 = none →
      d1.runId = some r → d2.runId = some r →
      (∀ d ∈ s.docs, d.runId ≠ some r) →
      MongoDBClient.insert_topics_document s d1 t1 =
        (.ok (toString s.docs.length),
         { s with docs := s.docs ++ [{ d1 with metadata := some (mkMetadata t1) }] },
         { d1 with metadata := some (mkMetadata t1) }) ∧
      MongoDBClient.insert_topics_document
          { s with docs := s.docs ++ [{ d1 with metadata := some (mkMetadata t1) }] } d2 t2 =
        (.error (.duplicateRunId ("Run ID already exists: " ++ r)),
         { s with docs := s.docs ++ [{ d1 with metadata := some (mkMetadata t1) }] },
         { d2 with metadata := some (mkMetadata t2) })) ∧
    (∀ (s : FirebaseClient.State) (d1 d2 : RunDoc) (r : String) (t1 t2 : Nat),
      s.connected = true →
      _validate_document d1 = none → _validate_document d2 = none →
      d1.runId = some r → d2.runId = some r →
      s.store.lookup r = none →
      FirebaseClient.insert_topics_document s d1 t1 =
        (.ok r,
         { s with store := s.store ++ [(r, { d1 with metadata := some (mkMetadata t1) })] },
         { d1 with metadata := some (mkMetadata t1) }) ∧
      FirebaseClient.insert_topics_document
          { s with store := s.store ++ [(r, { d1 with metadata := some (mkMetadata t1) })] } d2 t2 =
        (.error (.duplicateRunId ("Run ID already exists: " ++ r)),
         { s with store := s.store ++ [(r, { d1 with metadata := some (mkMetadata t1) })] },
         { d2 with metadata := some (mkMetadata t2) })) := by
  constructor
  · intro s d1 d2 r t1 t2 hc hv1 hv2 hr1 hr2 hfresh
    refine ⟨mongo_insert_fresh_eq s d1 r t1 hc hv1 hr1 hfresh, ?_⟩
    exact mongo_insert_dup_eq _ d2 r t2 hc hv2 hr2
      ⟨{ d1 with metadata := some (mkMetadata t1) }, by simp, by simp [hr1]⟩
  · intro s d1 d2 r t1 t2 hc hv1 hv2 hr1 hr2 hfresh
    refine ⟨fs_insert_fresh_eq s d1 r t1 hc hv1 hr1 hfresh, ?_⟩
    refine fs_insert_dup_eq _ d2 r t2 hc hv2 hr2 ?_
    simp [List.lookup_append, hfresh]

/-- **C3, witness.** -/
theorem insert_duplicate_run_id_witness :
    (MongoDBClient.insert_topics_document mongoEmpty runDoc1 5 =
      (.ok (toString mongoEmpty.docs.length),
       { mongoEmpty with docs := mongoEmpty.docs
          ++ [{ runDoc1 with metadata := some (mkMetadata 5) }] },
       { runDoc1 with metadata := some (mkMetadata 5) }) ∧
     MongoDBClient.insert_topics_document
        { mongoEmpty with docs := mongoEmpty.docs
          ++ [{ runDoc1 with metadata := some (mkMetadata 5) }] } runDoc2 9 =
      (.error (.duplicateRunId ("Run ID already exists: " ++ "run-1")),
       { mongoEmpty with docs := mongoEmpty.docs
          ++ [{ runDoc1 with metadata := some (mkMetadata 5) }] },
       { runDoc2 with metadata := some (mkMetadata 9) })) ∧
    (FirebaseClient.insert_topics_document fsEmpty runDoc1 5 =
      (.ok "run-1",
       { fsEmpty with store := fsEmpty.store
          ++ [("run-1", { runDoc1 with metadata := some (mkMetadata 5) })] },
       { runDoc1 with metadata := some (mkMetadata 5) }) ∧
     FirebaseClient.insert_topics_document
        { fsEmpty with store := fsEmpty.store
          ++ [("run-1", { runDoc1 with metadata := some (mkMetadata 5) })] } runDoc2 9 =
      (.error (.duplicateRunId ("Run ID already exists: " ++ "run-1")),
       { fsEmpty with store := fsEmpty.store
          ++ [("run-1", { runDoc1 with metadata := some (mkMetadata 5) })] },
       { runDoc2 with metadata := some (mkMetadata 9) })) :=
  ⟨insert_duplicate_run_id.1 mongoEmpty runDoc1 runDoc2 "run-1" 5 9
      rfl (by decide) (by decide) rfl rfl (by decide),
   insert_duplicate_run_id.2 fsEmpty runDoc1 runDoc2 "run-1" 5 9
      rfl (by decide) (by decide) rfl rfl rfl⟩

/-! ### C7 -/

/-- **C7.**  Round trip on both backends: inserting a well-formed document
`D` (without `_metadata`) whose `runId` is not yet stored succeeds, and
fetching that `runId` afterwards returns exactly `D` plus one added
`_metadata` block — insertion timestamp, version tag `"1.0.0"`, source tag
`"github-adk-agent"` — with every other field unchanged. -/
theorem insert_then_get_round_trip :
    (∀ (s : MongoDBClient.State) (d : RunDoc) (r : String) (now : Nat),
      s.connected = true → _validate_document d = none →
      d.runId = some r → d.metadata = none →
      (∀ d0 ∈ s.docs, d0.runId ≠ some r) →
      (MongoDBClient.insert_topics_document s d now).1 = .ok (toString s.docs.length) ∧
      MongoDBClient.get_topics_by_run_id
          (MongoDBClient.insert_topics_document s d now).2.1 r =
        .ok (some { d with metadata := some (mkMetadata now) })) ∧
    (∀ (s : FirebaseClient.State) (d : RunDoc) (r : String) (now : Nat),
      s.connected = true → _validate_document d = none →
      d.runId = some r → d.metadata = none →
      s.store.lookup r = none →
      (FirebaseClient.insert_topics_document s d now).1 = .ok r ∧
      FirebaseClient.get_topics_by_run_id
          (FirebaseClient.insert_topics_document s d now).2.1 r =
        .ok (some { d with metadata := some (mkMetadata now) })) := by
  constructor
  · intro s d r now hc hv hr hm hfresh
    rw [mongo_insert_fresh_eq s d r now hc hv hr hfresh]
    refine ⟨rfl, ?_⟩
    unfold MongoDBClient.get_topics_by_run_id
    rw [hc]
    simp only [Bool.true_eq_false, if_false]
    have hnone : s.docs.find? (fun d0 => d0.runId == some r) = none := by
      rw [List.find?_eq_none]
      intro d0 hd0
      simp [hfresh d0 hd0]
    rw [List.find?_append, hnone]
    simp [hr]
  · intro s d r now hc hv hr hm hfresh
    rw [fs_insert_fresh_eq s d r now hc hv hr hfresh]
    refine ⟨rfl, ?_⟩
    unfold FirebaseClient.get_topics_by_run_id
    rw [hc]
    simp only [Bool.true_eq_false, if_false]
    rw [List.lookup_append, hfresh]
    simp

/-- **C7, witness.** -/
theorem insert_then_get_round_trip_witness :
    ((MongoDBClient.insert_topics_document mongoEmpty runDoc1 5).1 =
        .ok (toString mongoEmpty.docs.length) ∧
      MongoDBClient.get_topics_by_run_id
          (MongoDBClient.insert_topics_document mongoEmpty runDoc1 5).2.1 "run-1" =
        .ok (some { runDoc1 with metadata := some (mkMetadata 5) })) ∧
    ((FirebaseClient.insert_topics_document fsEmpty runDoc1 5).1 = .ok "run-1" ∧
      FirebaseClient.get_topics_by_run_id
          (FirebaseClient.insert_topics_document fsEmpty runDoc1 5).2.1 "run-1" =
        .ok (some { runDoc1 with metadata := some (mkMetadata 5) })) :=
  ⟨insert_then_get_round_trip.1 mongoEmpty runDoc1 "run-1" 5 rfl (by decide) rfl rfl
      (by decide),
   insert_then_get_round_trip.2 fsEmpty runDoc1 "run-1" 5 rfl (by decide) rfl rfl rfl⟩

/-! ### C10 -/

/-- **C10.**  On both backends `insert_topics_document` stamps `_metadata`
into the caller's document after shape validation but before the
duplicate-id check and the write: when the call fails with `DuplicateRunId`,
the caller's document has already been mutated (its `_metadata` is set, so it
is no longer equal to the input), while a document that fails shape
validation is returned untouched. -/
theorem insert_mutates_document_on_duplicate :
    (∀ (s : MongoDBClient.State) (d : RunDoc) (r : String) (now : Nat),
      s.connected = true → _validate_document d = none →
      d.runId = some r → d.metadata = none →
      (∃ d0 ∈ s.docs, d0.runId = some r) →
      (MongoDBClient.insert_topics_document s d now).1 =
        .error (.duplicateRunId ("Run ID already exists: " ++ r)) ∧
      (MongoDBClient.insert_topics_document s d now).2.2 =
        { d with metadata := some (mkMetadata now) } ∧
      (MongoDBClient.insert_topics_document s d now).2.2 ≠ d) ∧
    (∀ (s : FirebaseClient.State) (d : RunDoc) (r : String) (now : Nat),
      s.connected = true → _validate_document d = none →
      d.runId = some r → d.metadata = none →
      (s.store.lookup r).isSome = true →
      (FirebaseClient.insert_topics_document s d now).1 =
        .error (.duplicateRunId ("Run ID already exists: " ++ r)) ∧
      (FirebaseClient.insert_topics_document s d now).2.2 =
        { d with metadata := some (mkMetadata now) } ∧
      (FirebaseClient.insert_topics_document s d now).2.2 ≠ d) ∧
    (∀ (s : MongoDBClient.State) (d : RunDoc) (now : Nat) (e : String),
      s.connected = true → _validate_document d = some e →
      MongoDBClient.insert_topics_document s d now = (.error (.invalidDocument e), s, d)) ∧
    (∀ (s : FirebaseClient.State) (d : RunDoc) (now : Nat) (e : String),
      s.connected = true → _validate_document d = some e →
      FirebaseClient.insert_topics_document s d now = (.error (.invalidDocument e), s, d)) := by
  refine ⟨?_, ?_, ?_, ?_⟩
  · intro s d r now hc hv hr hm hdup
    rw [mongo_insert_dup_eq s d r now hc hv hr hdup]
    refine ⟨rfl, rfl, ?_⟩
    intro hh
    have := congrArg RunDoc.metadata hh
    simp [hm] at this
  · intro s d r now hc hv hr hm hdup
    rw [fs_insert_dup_eq s d r now hc hv hr hdup]
    refine ⟨rfl, rfl, ?_⟩
    intro hh
    have := congrArg RunDoc.metadata hh
    simp [hm] at this
  · intro s d now e hc hv
    unfold MongoDBClient.insert_topics_document
    rw [hc]
    simp only [Bool.true_eq_false, if_false]
    rw [hv]
  · intro s d now e hc hv
    unfold FirebaseClient.insert_topics_document
    rw [hc]
    simp only [Bool.true_eq_false, if_false]
    rw [hv]

/-- A MongoDB store already holding `runId = "run-1"`. -/
def mongoWithRun1 : MongoDBClient.State :=
  { connected := true, docs := [{ runDoc1 with metadata := some (mkMetadata 5) }] }

/-- A Firestore store already holding `runId = "run-1"`. -/
def fsWithRun1 : FirebaseClient.State :=
  { connected := true, store := [("run-1", { runDoc1 with metadata := some (mkMetadata 5) })] }

/-- A run document missing its `model` field (fails shape validation). -/
def runDocNoModel : RunDoc :=
  { runId := some "run-2", generatedAt := some 7, model := none
    topics := some (.isList [docTopic1]), metadata := none }

/-- **C10, witness.** -/
theorem insert_mutates_document_on_duplicate_witness :
    ((MongoDBClient.insert_topics_document mongoWithRun1 runDoc2 9).1 =
        .error (.duplicateRunId ("Run ID already exists: " ++ "run-1")) ∧
      (MongoDBClient.insert_topics_document mongoWithRun1 runDoc2 9).2.2 =
        { runDoc2 with metadata := some (mkMetadata 9) } ∧
      (MongoDBClient.insert_topics_document mongoWithRun1 runDoc2 9).2.2 ≠ runDoc2) ∧
    ((FirebaseClient.insert_topics_document fsWithRun1 runDoc2 9).1 =
        .error (.duplicateRunId ("Run ID already exists: " ++ "run-1")) ∧
      (FirebaseClient.insert_topics_document fsWithRun1 runDoc2 9).2.2 =
        { runDoc2 with metadata := some (mkMetadata 9) } ∧
      (FirebaseClient.insert_topics_document fsWithRun1 runDoc2 9).2.2 ≠ runDoc2) ∧
    MongoDBClient.insert_topics_document mongoWithRun1 runDocNoModel 9 =
      (.error (.invalidDocument "Missing required field: model"), mongoWithRun1, runDocNoModel) ∧
    FirebaseClient.insert_topics_document fsWithRun1 runDocNoModel 9 =
      (.error (.invalidDocument "Missing required field: model"), fsWithRun1, runDocNoModel) :=
  ⟨insert_mutates_document_on_duplicate.1 mongoWithRun1 runDoc2 "run-1" 9
      rfl (by decide) rfl rfl ⟨{ runDoc1 with metadata := some (mkMetadata 5) }, by decide, by decide⟩,
   insert_mutates_document_on_duplicate.2.1 fsWithRun1 runDoc2 "run-1" 9
      rfl (by decide) rfl rfl rfl,
   insert_mutates_document_on_duplicate.2.2.1 mongoWithRun1 runDocNoModel 9
      "Missing required field: model" rfl (by decide),
   insert_mutates_document_on_duplicate.2.2.2 fsWithRun1 runDocNoModel 9
      "Missing required field: model" rfl (by decide)⟩

/-! ### C8 -/

/-- **C8.**  On a connected store holding zero documents, `get_stats`
succeeds on both backends and returns exactly the zero-valued shape —
`totalDocuments = 0`, `totalTopics = 0`, no `lastGeneration`, and two empty
distribution mappings — and the two backends agree. -/
theorem get_stats_empty_store :
    MongoDBClient.get_stats { connected := true, docs := [] } =
      .ok { totalDocuments := 0, totalTopics := 0, lastGeneration := none
            categoriesDistribution := [], difficultiesDistribution := [] } ∧
    FirebaseClient.get_stats { connected := true, store := [] } =
      .ok { totalDocuments := 0, totalTopics := 0, lastGeneration := none
            categoriesDistribution := [], difficultiesDistribution := [] } ∧
    MongoDBClient.get_stats { connected := true, docs := [] } =
      FirebaseClient.get_stats { connected := true, store := [] } := by
  refine ⟨by decide, by decide, by decide⟩

/-! ### C9 -/

/-- A prefix occurrence is an occurrence. -/
theorem containsSub_of_isPrefixOf (needle hay : List Char)
    (h : needle.isPrefixOf hay = true) : containsSub needle hay = true := by
  cases hay with
  | nil => rw [containsSub]; exact h
  | cons c rest => rw [containsSub]; simp [h]

/-- A needle occurs in any character list that contains it contiguously. -/
theorem containsSub_append (pre needle post : List Char) :
    containsSub needle (pre ++ (needle ++ post)) = true := by
  induction pre with
  | nil =>
    rw [List.nil_append]
    exact containsSub_of_isPrefixOf _ _ (by simp [List.isPrefixOf_iff_prefix])
  | cons c pre ih =>
    rw [List.cons_append, containsSub]
    simp [ih]

/-- If `hay` is `pre ++ v ++ post` at the character level then `hay`
mentions `v`. -/
theorem strMentions_of_data (hay v : String) (pre post : List Char)
    (h : hay.data = pre ++ (v.data ++ post)) : strMentions hay v = true := by
  unfold strMentions
  rw [h]
  exact containsSub_append pre v.data post

/-- The completely empty environment: the provider defaults to MONGO, whose
one required variable `MONGODB_URI` is missing. -/
def envEmpty : Env := fun _ => none

/-- An environment selecting the Firebase provider (lower-case, exercising
`.upper()`) with its required variable unset. -/
def envFirebaseMissing : Env := fun v =>
  if v = "DATABASE_PROVIDER" then some "firebase" else none

/-- An environment for the default MONGO provider with its required variable
set. -/
def envMongoSet : Env := fun v =>
  if v = "MONGODB_URI" then some "mongodb://localhost:27017" else none

/-- **C9, counterexample.**  The claim says the raised `MissingConfiguration`
error names every missing required variable.  On the empty environment the
raised error's message is `"Required MONGO environment variables not set"`,
which does not mention the missing variable `MONGODB_URI` at all (the
variable names appear only in the error log). -/
theorem missing_config_error_counterexample :
    (DatabaseFactory.validate_provider_config envEmpty).result =
      .error (.missingConfiguration "Required MONGO environment variables not set") ∧
    strMentions "Required MONGO environment variables not set" "MONGODB_URI" = false := by
  refine ⟨by decide, by decide⟩

/-- **C9 (amended).**  For the selected provider's required-variable table:
when every required variable is set (non-empty), `validate_provider_config`
returns the mapping from each required variable to its value; when some are
missing, it logs one line naming each missing variable (with its
description) and raises a single `MissingConfiguration` error whose message
names only the provider. -/
theorem validate_provider_config_spec (env : Env) (req : List (String × String))
    (hreq : DatabaseFactory.required_vars (DatabaseFactory.get_provider_name env) = some req) :
    (DatabaseFactory.missingVarEntries env req = [] →
      (DatabaseFactory.validate_provider_config env).result =
        .ok (DatabaseFactory.presentVarEntries env req) ∧
      (DatabaseFactory.validate_provider_config env).errorLog = []) ∧
    (DatabaseFactory.missingVarEntries env req ≠ [] →
      (DatabaseFactory.validate_provider_config env).result =
        .error (.missingConfiguration ("Required " ++ DatabaseFactory.get_provider_name env
          ++ " environment variables not set")) ∧
      (DatabaseFactory.validate_provider_config env).errorLog =
        ("Missing required environment variables for "
            ++ DatabaseFactory.get_provider_name env ++ ":")
          :: (DatabaseFactory.missingVarEntries env req).map (fun v => "  - " ++ v) ∧
      (∀ vd ∈ req, (DatabaseFactory.envValue env vd.1).isNone = true →
        ∃ line ∈ (DatabaseFactory.validate_provider_config env).errorLog,
          strMentions line vd.1 = true)) := by
  have hconf : DatabaseFactory.validate_provider_config env =
      (if (DatabaseFactory.missingVarEntries env req).isEmpty then
        { result := .ok (DatabaseFactory.presentVarEntries env req), errorLog := [] }
      else
        { result := .error (.missingConfiguration
            ("Required " ++ DatabaseFactory.get_provider_name env
              ++ " environment variables not set"))
          errorLog := ("Missing required environment variables for "
              ++ DatabaseFactory.get_provider_name env ++ ":")
            :: (DatabaseFactory.missingVarEntries env req).map (fun v => "  - " ++ v) }) := by
    unfold DatabaseFactory.validate_provider_config
    dsimp only []
    rw [hreq]
  constructor
  · intro hempty
    rw [hconf, hempty]
    exact ⟨by trivial, by trivial⟩
  · intro hne
    have hisempty : (DatabaseFactory.missingVarEntries env req).isEmpty = false := by
      cases h : DatabaseFactory.missingVarEntries env req with
      | nil => exact absurd h hne
      | cons a l => rfl
    rw [hconf, hisempty]
    simp only [Bool.false_eq_true, if_false]
    refine ⟨by trivial, by trivial, ?_⟩
    intro vd hvd hnone
    refine ⟨"  - " ++ (vd.1 ++ " (" ++ vd.2 ++ ")"), ?_, ?_⟩
    · apply List.mem_cons_of_mem
      apply List.mem_map_of_mem
      apply List.mem_filterMap.mpr
      exact ⟨vd, hvd, by rw [hnone]; simp⟩
    · exact strMentions_of_data _ _ "  - ".data (" (".data ++ vd.2.data ++ ")".data)
        (by simp)

/-- **C9, witness.** -/
theorem validate_provider_config_spec_witness :
    ((DatabaseFactory.validate_provider_config envMongoSet).result =
        .ok (DatabaseFactory.presentVarEntries envMongoSet
          [("MONGODB_URI", "MongoDB connection string")]) ∧
      (DatabaseFactory.validate_provider_config envMongoSet).errorLog = []) ∧
    ((DatabaseFactory.validate_provider_config envFirebaseMissing).result =
        .error (.missingConfiguration ("Required "
          ++ DatabaseFactory.get_provider_name envFirebaseMissing
          ++ " environment variables not set")) ∧
      (DatabaseFactory.validate_provider_config envFirebaseMissing).errorLog =
        ("Missing required environment variables for "
            ++ DatabaseFactory.get_provider_name envFirebaseMissing ++ ":")
          :: (DatabaseFactory.missingVarEntries envFirebaseMissing
              [("GOOGLE_CLOUD_PROJECT", "Firebase project ID")]).map (fun v => "  - " ++ v) ∧
      (∀ vd ∈ [("GOOGLE_CLOUD_PROJECT", "Firebase project ID")],
        (DatabaseFactory.envValue envFirebaseMissing vd.1).isNone = true →
        ∃ line ∈ (DatabaseFactory.validate_provider_config envFirebaseMissing).errorLog,
          strMentions line vd.1 = true)) :=
  ⟨(validate_provider_config_spec envMongoSet
      [("MONGODB_URI", "MongoDB connection string")] (by decide)).1 (by decide),
   (validate_provider_config_spec envFirebaseMissing
      [("GOOGLE_CLOUD_PROJECT", "Firebase project ID")] (by decide)).2 (by decide)⟩
